import Mathlib

/-!
Verification of the natural-language specification of the repository
backendbiz/fastapi-multibot-scraper against a shallow embedding of its
Python source.  Each section embeds the data model and operations of one
part of the code (file and line references are given in the doc comments)
and proves the corresponding claims.
-/

namespace PyStr

/-- Python str.split(sep) with a one-character separator: split at every
occurrence of the separator, keeping empty pieces. -/
def splitChars (sep : Char) : List Char → List (List Char)
  | [] => [[]]
  | c :: rest =>
      if c = sep then [] :: splitChars sep rest
      else
        match splitChars sep rest with
        | [] => [[c]]
        | t :: ts => (c :: t) :: ts

/-- Python str.split(sep) on Lean strings. -/
def pySplit (sep : Char) (s : String) : List String :=
  (splitChars sep s.data).map String.mk

/-- Python str.strip(): remove leading and trailing whitespace. -/
def pyStrip (s : String) : String :=
  String.mk (((s.data.dropWhile Char.isWhitespace).reverse.dropWhile
    Char.isWhitespace).reverse)

/-- Python str.startswith(p). -/
def pyStartsWith (s p : String) : Bool :=
  p.data.isPrefixOf s.data

end PyStr

namespace Security

/-- Byte strings are modelled as lists of naturals (each 0..255). -/
abbrev Bytes := List Nat

/-- APIKeyEncryption.NONCE_SIZE, app/core/security.py line 31: 96-bit GCM nonce. -/
def NONCE_SIZE : Nat := 12

/-- An authenticated symmetric cipher, as provided by the external
cryptography library primitive AESGCM (not code of this repository):
enc nonce pt is the ciphertext with appended tag, dec nonce ct recovers
the plaintext or fails.  The development is parametric in it. -/
structure AEAD where
  enc : Bytes → Bytes → Bytes
  dec : Bytes → Bytes → Option Bytes

/-- APIKeyEncryption.encrypt, app/core/security.py lines 51-66:
base64-encode (nonce ++ AESGCM-ciphertext).  The standard-library
functions base64.urlsafe_b64encode and str.encode are parameters
(b64encode, strEncode); the nonce comes from os.urandom(NONCE_SIZE). -/
def encrypt (aesgcm : AEAD) (b64encode : Bytes → Bytes)
    (strEncode : String → Bytes) (nonce : Bytes) (plaintext : String) : Bytes :=
  let ciphertext := aesgcm.enc nonce (strEncode plaintext)
  b64encode (nonce ++ ciphertext)

/-- APIKeyEncryption.decrypt, app/core/security.py lines 68-92:
base64-decode, split off the first NONCE_SIZE bytes as the nonce,
AESGCM-decrypt the rest; any failure (caught by the catch-all except)
yields None. -/
def decrypt (aesgcm : AEAD) (b64decode : Bytes → Option Bytes)
    (strDecode : Bytes → Option String) (encrypted : Bytes) : Option String :=
  match b64decode encrypted with
  | none => none
  | some data =>
      let nonce := data.take NONCE_SIZE
      let ciphertext := data.drop NONCE_SIZE
      match aesgcm.dec nonce ciphertext with
      | none => none
      | some plaintext => strDecode plaintext

/-- Settings.get_valid_api_keys, app/core/config.py lines 167-169:
split the comma-separated setting, strip whitespace, drop falsy (empty)
entries. -/
def get_valid_api_keys (valid_api_keys_setting : String) : List String :=
  (((PyStr.pySplit ',' valid_api_keys_setting).map PyStr.pyStrip).filter
    (fun k => k ≠ ""))

/-- Every configured valid key is a nonempty string (the comprehension in
get_valid_api_keys filters out falsy stripped keys). -/
theorem get_valid_api_keys_ne_empty (cfg k : String)
    (hk : k ∈ get_valid_api_keys cfg) : k ≠ "" := by
  unfold get_valid_api_keys at hk
  have := List.of_mem_filter hk
  simpa using this

/-- APIKeyValidator.validate, app/core/security.py lines 117-144.
decryptFn abstracts self.encryption.decrypt; validKeys abstracts
self._valid_keys; environment abstracts settings.ENVIRONMENT.
Python truthiness: a decryption result that is None or the empty string
leaves the presented key in place. -/
def validate (decryptFn : String → Option String) (validKeys : List String)
    (environment : String) (api_key : String) (encrypted : Bool) :
    Bool × Option String :=
  let decrypted_key := api_key
  let decrypted_key :=
    if encrypted then
      match decryptFn api_key with
      | some d => if d ≠ "" then d else decrypted_key
      | none => decrypted_key
    else decrypted_key
  let is_valid := validKeys.contains decrypted_key
  let is_valid :=
    if is_valid = false ∧ environment = "development" then validKeys.contains api_key
    else is_valid
  (is_valid, if is_valid then some decrypted_key else none)

/-- Outcome of APIKeyMiddleware.dispatch: either the request is forwarded
(carrying request.state.api_key) or rejected with a 401 body. -/
inductive DispatchResult where
  | forwarded (api_key : Option String)
  | unauthorized (error : String) (message : String)
deriving DecidableEq, Repr

/-- APIKeyMiddleware.EXEMPT_PATHS, app/middleware/api_key.py lines 28-35. -/
def EXEMPT_PATHS : List String :=
  ["/", "/health", "/docs", "/redoc", "/openapi.json", "/favicon.ico"]

/-- APIKeyMiddleware._is_exempt, app/middleware/api_key.py lines 89-100. -/
def is_exempt (exempt_paths : List String) (path : String) : Bool :=
  exempt_paths.contains path ||
    exempt_paths.any (fun e => PyStr.pyStartsWith path e && e ≠ "/")

/-- APIKeyMiddleware.dispatch, app/middleware/api_key.py lines 42-87.
header is the value of the configured header (header_name), None when
absent; Python truthiness makes an empty header count as missing. -/
def dispatch (decryptFn : String → Option String) (validKeys : List String)
    (environment header_name : String) (exempt_paths : List String)
    (path : String) (header : Option String) : DispatchResult :=
  if is_exempt exempt_paths path then .forwarded none
  else
    match header with
    | none => .unauthorized "unauthorized" ("Missing " ++ header_name ++ " header")
    | some api_key =>
        if api_key = "" then
          .unauthorized "unauthorized" ("Missing " ++ header_name ++ " header")
        else
          let r := validate decryptFn validKeys environment api_key true
          if r.fst then .forwarded r.snd
          else .unauthorized "unauthorized" "Invalid API key"

/-- Claim C1: for every string s and every APIKeyEncryption instance built
from a fixed secret key, decrypt (encrypt s) returns s (not None):
encryption followed by decryption with the same key is the identity on
API keys.  The theorem is parametric in the library primitives (AESGCM,
base64, UTF-8), assuming exactly their documented round-trip contracts,
and in the random nonce, which os.urandom makes NONCE_SIZE bytes long. -/
theorem C1_encrypt_then_decrypt_roundtrip (aesgcm : AEAD)
    (b64encode : Bytes → Bytes) (b64decode : Bytes → Option Bytes)
    (strEncode : String → Bytes) (strDecode : Bytes → Option String)
    (hb64 : ∀ x, b64decode (b64encode x) = some x)
    (haead : ∀ n p, aesgcm.dec n (aesgcm.enc n p) = some p)
    (hstr : ∀ s, strDecode (strEncode s) = some s)
    (nonce : Bytes) (hnonce : nonce.length = NONCE_SIZE) (s : String) :
    decrypt aesgcm b64decode strDecode
      (encrypt aesgcm b64encode strEncode nonce s) = some s := by
  unfold decrypt encrypt
  rw [hb64]
  simp only
  rw [List.take_left' hnonce, List.drop_left' hnonce, haead]
  exact hstr s

/-- Trivial concrete cipher for evaluating the C1 theorem: the identity
with no tag, which satisfies the AEAD round-trip contract. -/
def idAEAD : AEAD := { enc := fun _ p => p, dec := fun _ c => some c }

/-- Concrete string-to-bytes encoder (code points) for the C1 witness. -/
def charEncode (s : String) : Bytes := s.data.map Char.toNat

/-- Concrete bytes-to-string decoder for the C1 witness. -/
def charDecode (b : Bytes) : Option String := some (String.mk (b.map Char.ofNat))

theorem C1_witness :
    decrypt idAEAD some charDecode
      (encrypt idAEAD id charEncode (List.replicate 12 0) "sk_live_key") =
      some "sk_live_key" :=
  C1_encrypt_then_decrypt_roundtrip idAEAD id some charEncode charDecode
    (fun _ => rfl) (fun _ _ => rfl)
    (fun s => by
      cases s with
      | mk data =>
          simp [charEncode, charDecode, List.map_map, Function.comp_def,
            Char.ofNat_toNat])
    (List.replicate 12 0) rfl "sk_live_key"

/-- Claim C9: every key k in the configured valid-key set is accepted by
APIKeyValidator.validate (k, encrypted := true) as (true, k) in every
environment, not only in development: when decryption of the presented
key fails (returns None, or an empty falsy string), the raw key is
checked against the valid set as-is, so presenting the plain unencrypted
API key in the X-API-Key header authenticates and the middleware forwards
the request. -/
theorem C9_plain_key_always_validates (decryptFn : String → Option String)
    (cfg environment path k : String)
    (hk : k ∈ get_valid_api_keys cfg)
    (hdec : decryptFn k = none ∨ decryptFn k = some "")
    (hpath : is_exempt EXEMPT_PATHS path = false) :
    validate decryptFn (get_valid_api_keys cfg) environment k true = (true, some k) ∧
    dispatch decryptFn (get_valid_api_keys cfg) environment "X-API-Key"
      EXEMPT_PATHS path (some k) = .forwarded (some k) := by
  have hne : k ≠ "" := get_valid_api_keys_ne_empty cfg k hk
  have hcont : (get_valid_api_keys cfg).contains k = true := by
    simpa [List.contains] using List.elem_eq_true_of_mem hk
  have hval : validate decryptFn (get_valid_api_keys cfg) environment k true
      = (true, some k) := by
    unfold validate
    rcases hdec with h | h <;> simp [h, hcont] <;> exact hk
  refine ⟨hval, ?_⟩
  unfold dispatch
  rw [hpath]
  simp only [Bool.false_eq_true, if_false]
  rw [if_neg hne, hval]
  simp

theorem C9_witness :
    validate (fun _ => none) (get_valid_api_keys "sk_alpha,sk_beta") "production"
      "sk_alpha" true = (true, some "sk_alpha") ∧
    dispatch (fun _ => none) (get_valid_api_keys "sk_alpha,sk_beta") "production"
      "X-API-Key" EXEMPT_PATHS "/api/v1/items" (some "sk_alpha") =
      .forwarded (some "sk_alpha") :=
  C9_plain_key_always_validates (fun _ => none) "sk_alpha,sk_beta" "production"
    "/api/v1/items" "sk_alpha" (by decide) (Or.inl rfl) (by decide)

end Security

namespace BotMgr

/-- BotConfig, app/services/bot_manager.py lines 21-42: configuration of a
single Telegram bot (datetimes are modelled as Unix timestamps). -/
structure BotConfig where
  bot_id : String
  bot_token : String
  bot_name : String
  channel_id : String
  allowed_users : List Int
  allowed_commands : List String
  is_active : Bool
  created_at : Nat
  webhook_url : Option String
  webhook_secret : Option String
  default_wait_time : Nat
  default_timeout : Nat
  take_screenshot : Bool
  send_to_channel : Bool
  max_requests_per_minute : Nat
deriving DecidableEq, Repr

/-- In-memory state of BotManager: the _bots dict and the _clients dict
(a client is modelled by the config it wraps).  Dicts are modelled as
functions to Option. -/
structure BotManagerState where
  bots : String → Option BotConfig
  clients : String → Option BotConfig

/-- BotManager.get_bot, app/services/bot_manager.py lines 451-453. -/
def get_bot (st : BotManagerState) (bot_id : String) : Option BotConfig :=
  st.bots bot_id

/-- BotManager.unregister_bot, app/services/bot_manager.py lines 415-429:
when the bot is registered, close and delete its client, delete its
config, and return True; otherwise return False.  The _save_to_file and
client-close IO effects are not modelled. -/
def unregister_bot (st : BotManagerState) (bot_id : String) :
    Bool × BotManagerState :=
  match st.bots bot_id with
  | some _ =>
      let clients :=
        match st.clients bot_id with
        | some _ => fun k => if k = bot_id then none else st.clients k
        | none => st.clients
      let bots := fun k => if k = bot_id then none else st.bots k
      (true, { bots := bots, clients := clients })
  | none => (false, st)

/-- BotManager.is_user_allowed, app/services/bot_manager.py lines 488-498:
unknown bot means not allowed; an empty allowed_users list (falsy) means
every user is allowed; otherwise membership decides. -/
def is_user_allowed (st : BotManagerState) (bot_id : String) (user_id : Int) :
    Bool :=
  match st.bots bot_id with
  | none => false
  | some bot =>
      if bot.allowed_users.isEmpty then true
      else bot.allowed_users.contains user_id

/-- Claim C6: unregister_bot bot_id returns True iff bot_id was registered;
when it returns True, get_bot bot_id is None afterwards and the
configuration of every other registered bot is unchanged; when it returns
False the whole bot registry is unchanged. -/
theorem C6_unregister_bot_frame (st : BotManagerState) (bot_id : String) :
    ((unregister_bot st bot_id).fst = true ↔ (get_bot st bot_id).isSome) ∧
    ((unregister_bot st bot_id).fst = true →
      get_bot (unregister_bot st bot_id).snd bot_id = none ∧
      ∀ k, k ≠ bot_id →
        get_bot (unregister_bot st bot_id).snd k = get_bot st k) ∧
    ((unregister_bot st bot_id).fst = false →
      (unregister_bot st bot_id).snd = st) := by
  unfold unregister_bot get_bot
  cases h : st.bots bot_id with
  | none => simp
  | some cfg =>
      refine ⟨by simp, fun _ => ⟨by simp, fun k hk => by simp [hk]⟩, by simp⟩

/-- Concrete two-bot state for evaluating the C6 and C10 theorems. -/
def cfgA : BotConfig :=
  { bot_id := "alpha", bot_token := "t1", bot_name := "Alpha",
    channel_id := "@chanA", allowed_users := [], allowed_commands := ["scrape"],
    is_active := true, created_at := 0, webhook_url := none,
    webhook_secret := none, default_wait_time := 5, default_timeout := 30,
    take_screenshot := true, send_to_channel := true,
    max_requests_per_minute := 10 }

/-- Second concrete bot, with a nonempty allow-list. -/
def cfgB : BotConfig :=
  { cfgA with
    bot_id := "beta", bot_token := "t2", bot_name := "Beta",
    channel_id := "@chanB", allowed_users := [7, 9] }

/-- Concrete registry holding cfgA and cfgB. -/
def stAB : BotManagerState :=
  { bots := fun k => if k = "alpha" then some cfgA
      else if k = "beta" then some cfgB else none,
    clients := fun k => if k = "alpha" then some cfgA
      else if k = "beta" then some cfgB else none }

theorem C6_witness :
    (unregister_bot stAB "alpha").fst = true ∧
    get_bot (unregister_bot stAB "alpha").snd "alpha" = none ∧
    get_bot (unregister_bot stAB "alpha").snd "beta" = get_bot stAB "beta" ∧
    (unregister_bot stAB "missing").fst = false ∧
    (unregister_bot stAB "missing").snd = stAB := by
  have h := C6_unregister_bot_frame stAB "alpha"
  have h2 := C6_unregister_bot_frame stAB "missing"
  have hfst : (unregister_bot stAB "alpha").fst = true :=
    h.1.mpr (by decide)
  have hmiss : (unregister_bot stAB "missing").fst = false := by
    decide
  exact ⟨hfst, (h.2.1 hfst).1, (h.2.1 hfst).2 "beta" (by decide),
    hmiss, h2.2.2 hmiss⟩

/-- Claim C10: is_user_allowed bot_id user_id is False for every user when
bot_id is not registered; when the bot is registered with an empty
allowed_users list it is True for every user; otherwise it is True
exactly for members of allowed_users. -/
theorem C10_is_user_allowed_cases (st : BotManagerState) (bot_id : String)
    (user_id : Int) :
    (st.bots bot_id = none → is_user_allowed st bot_id user_id = false) ∧
    (∀ bot, st.bots bot_id = some bot → bot.allowed_users = [] →
      is_user_allowed st bot_id user_id = true) ∧
    (∀ bot, st.bots bot_id = some bot → bot.allowed_users ≠ [] →
      (is_user_allowed st bot_id user_id = true ↔
        user_id ∈ bot.allowed_users)) := by
  refine ⟨fun h => by simp [is_user_allowed, h], fun bot h hemp => ?_,
    fun bot h hne => ?_⟩
  · simp [is_user_allowed, h, hemp]
  · simp [is_user_allowed, h, List.isEmpty_iff, hne]

theorem C10_witness :
    is_user_allowed stAB "gamma" 7 = false ∧
    is_user_allowed stAB "alpha" 12345 = true ∧
    is_user_allowed stAB "beta" 7 = true ∧
    is_user_allowed stAB "beta" 8 = false := by
  have hg := (C10_is_user_allowed_cases stAB "gamma" 7).1 (by decide)
  have ha := (C10_is_user_allowed_cases stAB "alpha" 12345).2.1 cfgA
    (by decide) rfl
  have hb7 := ((C10_is_user_allowed_cases stAB "beta" 7).2.2 cfgB
    (by decide) (by decide)).mpr (by decide)
  have hb8 := (C10_is_user_allowed_cases stAB "beta" 8).2.2 cfgB
    (by decide) (by decide)
  refine ⟨hg, ha, hb7, Bool.eq_false_iff.mpr fun hcon => ?_⟩
  exact absurd (hb8.mp hcon) (by decide)

end BotMgr

namespace Worker

/-- JSON-like values appearing in scraper result dictionaries (Python
floats are modelled as rationals). -/
inductive JVal where
  | s (v : String)
  | num (v : Rat)
  | b (v : Bool)
  | null
deriving DecidableEq, Repr

/-- A Python dict result, as an association list. -/
abbrev ResultDict := List (String × JVal)

/-- Key membership in a result dict. -/
def hasKey (d : ResultDict) (k : String) : Bool :=
  d.any (fun p => p.fst = k)

/-- Keyword arguments of the Celery task; kwargs.get gives None when a key
is absent. -/
structure Kwargs where
  fullname : Option String
  requested_username : Option String
  username : Option String
  amount : Option Rat

/-- Whether a scraper instance carries the driver attribute read by the
finally clause of the task (tasks.py lines 80-82).  The Selenium-backed
classes assign self.driver in __init__ (e.g. pandamaster.py line 46,
orionstars.py line 45), so the attribute exists (active when a browser
was started); the signed-HTTP classes VBlink777Scraper,
GameVault999Scraper and CashFrenzy777Scraper (and VegasXScraper) never
assign self.driver anywhere and do not subclass BaseGameScraper, so
reading scraper.driver raises AttributeError. -/
inductive DriverAttr where
  | absent
  | present (active : Bool)
deriving DecidableEq, Repr

/-- One scraper instance as seen by the worker task: each action either
returns a value or raises (Except.error carries str(e)), and the
instance either has or lacks the driver attribute.  The concrete
scrapers drive Selenium or signed HTTP APIs, which are external; the
worker-task claims are parametric in them. -/
structure ScraperOps where
  get_agent_balance : Except String (Option Rat × String)
  player_signup : Option String → Option String → Except String ResultDict
  recharge_user : Option String → Option Rat → Except String ResultDict
  redeem_user : Option String → Option Rat → Except String ResultDict
  driver : DriverAttr

/-- The uniform error dict produced by the catch-all handlers. -/
def errorDict (msg : String) : ResultDict :=
  [("status", .s "error"), ("message", .s msg)]

/-- Observable outcome of one task invocation: the task returns a dict,
or an exception escapes it (in particular from the finally clause). -/
inductive TaskOutcome where
  | returned (d : ResultDict)
  | raised
deriving DecidableEq, Repr

/-- Key membership in the dict of a returned outcome. -/
def outcomeHasKey (o : TaskOutcome) (k : String) : Bool :=
  match o with
  | .returned d => hasKey d k
  | .raised => false

/-- The try/except body of pandamaster_action, app/worker/tasks.py
lines 53-79: run one action on the chosen scraper; any exception e
raised by the dispatched operation becomes the error dict with message
str(e). -/
def runAction (scraper : ScraperOps) (action_type : String) (kw : Kwargs) :
    ResultDict :=
  if action_type = "agent_balance" then
    match scraper.get_agent_balance with
    | .ok (balance, msg) =>
        [("status", .s (if balance.isSome then "success" else "failure")),
         ("balance", match balance with | some b => .num b | none => .null),
         ("message", .s msg)]
    | .error e => errorDict e
  else if action_type = "signup" then
    match scraper.player_signup kw.fullname kw.requested_username with
    | .ok d => d
    | .error e => errorDict e
  else if action_type = "recharge" then
    match scraper.recharge_user kw.username kw.amount with
    | .ok d => d
    | .error e => errorDict e
  else if action_type = "redeem" then
    match scraper.redeem_user kw.username kw.amount with
    | .ok d => d
    | .error e => errorDict e
  else errorDict ("Unknown action: " ++ action_type)

/-- The try/except/finally of pandamaster_action, tasks.py lines 53-82:
the body yields a dict, then the finally clause evaluates
scraper.driver.  On a scraper class without the attribute that read
raises AttributeError, which propagates out of the task and discards the
pending return value (the except clause cannot catch an exception raised
in finally); otherwise the conditional close() runs (an external browser
shutdown, not modelled further) and the dict is returned. -/
def runTask (scraper : ScraperOps) (action_type : String) (kw : Kwargs) :
    TaskOutcome :=
  let result := runAction scraper action_type kw
  match scraper.driver with
  | .absent => .raised
  | .present _ => .returned result

/-- pandamaster_action, app/worker/tasks.py lines 7-82: choose the scraper
by the if/elif chain on game_name and run the action through the
try/except/finally; an unmatched game name returns the unsupported-game
error dict at lines 50-51, before the try block.  scraperFor abstracts
the per-game scraper construction. -/
def pandamaster_action (scraperFor : String → ScraperOps)
    (action_type game_name : String) (kw : Kwargs) : TaskOutcome :=
  if game_name = "pandamaster" then runTask (scraperFor game_name) action_type kw
  else if game_name = "firekirin" then runTask (scraperFor game_name) action_type kw
  else if game_name = "orionstars" then runTask (scraperFor game_name) action_type kw
  else if game_name = "milkywayapp" then runTask (scraperFor game_name) action_type kw
  else if game_name = "juwa777" then runTask (scraperFor game_name) action_type kw
  else if game_name = "vegasx" then runTask (scraperFor game_name) action_type kw
  else if game_name = "vblink777" then runTask (scraperFor game_name) action_type kw
  else if game_name = "gamevault999" then runTask (scraperFor game_name) action_type kw
  else if game_name = "ultrapanda" then runTask (scraperFor game_name) action_type kw
  else if game_name = "cashfrenzy777" then runTask (scraperFor game_name) action_type kw
  else if game_name = "cashmachine777" then runTask (scraperFor game_name) action_type kw
  else .returned (errorDict ("Unsupported game: " ++ game_name))

/-- The game names matched by the if/elif chain of pandamaster_action. -/
def workerSupportedGames : List String :=
  ["pandamaster", "firekirin", "orionstars", "milkywayapp", "juwa777",
   "vegasx", "vblink777", "gamevault999", "ultrapanda", "cashfrenzy777",
   "cashmachine777"]

/-- A scraper whose successful signup/recharge/redeem results carry the
common status and message keys — the uniform shape every scraper class in
the repository returns on every branch. -/
def WellShaped (ops : ScraperOps) : Prop :=
  (∀ fn un d, ops.player_signup fn un = .ok d →
    hasKey d "status" = true ∧ hasKey d "message" = true) ∧
  (∀ u a d, ops.recharge_user u a = .ok d →
    hasKey d "status" = true ∧ hasKey d "message" = true) ∧
  (∀ u a d, ops.redeem_user u a = .ok d →
    hasKey d "status" = true ∧ hasKey d "message" = true)

/-- A supported game dispatches to its scraper through the
try/except/finally. -/
theorem pandamaster_action_supported (scraperFor : String → ScraperOps)
    (action_type game_name : String) (kw : Kwargs)
    (hg : game_name ∈ workerSupportedGames) :
    pandamaster_action scraperFor action_type game_name kw =
      runTask (scraperFor game_name) action_type kw := by
  simp only [workerSupportedGames, List.mem_cons, List.not_mem_nil, or_false] at hg
  rcases hg with rfl | rfl | rfl | rfl | rfl | rfl | rfl | rfl | rfl | rfl | rfl <;>
    simp [pandamaster_action]

/-- The try/except body alone does normalize every result into a dict
with status and message and converts dispatched-operation exceptions. -/
theorem runAction_normalized (scraper : ScraperOps) (action_type : String)
    (kw : Kwargs) (hws : WellShaped scraper) :
    (hasKey (runAction scraper action_type kw) "status" = true ∧
     hasKey (runAction scraper action_type kw) "message" = true) ∧
    (action_type = "agent_balance" → ∀ e,
      scraper.get_agent_balance = .error e →
      runAction scraper action_type kw = errorDict e) ∧
    (action_type = "signup" → ∀ e,
      scraper.player_signup kw.fullname kw.requested_username = .error e →
      runAction scraper action_type kw = errorDict e) ∧
    (action_type = "recharge" → ∀ e,
      scraper.recharge_user kw.username kw.amount = .error e →
      runAction scraper action_type kw = errorDict e) ∧
    (action_type = "redeem" → ∀ e,
      scraper.redeem_user kw.username kw.amount = .error e →
      runAction scraper action_type kw = errorDict e) := by
  obtain ⟨hsu, hrc, hrd⟩ := hws
  unfold runAction
  by_cases h1 : action_type = "agent_balance"
  · subst h1
    cases hb : scraper.get_agent_balance with
    | ok v =>
        refine ⟨?_, ?_, ?_, ?_, ?_⟩ <;>
          simp +decide [hasKey, hb, errorDict]
    | error e =>
        refine ⟨?_, ?_, ?_, ?_, ?_⟩ <;>
          simp +decide [hasKey, hb, errorDict]
  · by_cases h2 : action_type = "signup"
    · subst h2
      cases hb : scraper.player_signup kw.fullname kw.requested_username with
      | ok d =>
          refine ⟨?_, ?_, ?_, ?_, ?_⟩ <;> simp +decide [hb, errorDict]
          exact hsu kw.fullname kw.requested_username d hb
      | error e =>
          refine ⟨?_, ?_, ?_, ?_, ?_⟩ <;> simp +decide [hasKey, hb, errorDict]
    · by_cases h3 : action_type = "recharge"
      · subst h3
        cases hb : scraper.recharge_user kw.username kw.amount with
        | ok d =>
            refine ⟨?_, ?_, ?_, ?_, ?_⟩ <;> simp +decide [hb, errorDict, h2]
            exact hrc kw.username kw.amount d hb
        | error e =>
            refine ⟨?_, ?_, ?_, ?_, ?_⟩ <;> simp +decide [hasKey, hb, errorDict, h2]
      · by_cases h4 : action_type = "redeem"
        · subst h4
          cases hb : scraper.redeem_user kw.username kw.amount with
          | ok d =>
              refine ⟨?_, ?_, ?_, ?_, ?_⟩ <;> simp +decide [hb, errorDict, h2, h3]
              exact hrd kw.username kw.amount d hb
          | error e =>
              refine ⟨?_, ?_, ?_, ?_, ?_⟩ <;>
                simp +decide [hasKey, hb, errorDict, h2, h3]
        · refine ⟨?_, ?_, ?_, ?_, ?_⟩ <;>
            simp +decide [hasKey, errorDict, h1, h2, h3, h4]

/-- Concrete kwargs used by the worker witnesses. -/
def sampleKw : Kwargs :=
  { fullname := some "John Doe", requested_username := none,
    username := some "pmab123", amount := some 50 }

/-- Scraper with the shape of the signed-HTTP classes VBlink777Scraper,
GameVault999Scraper and CashFrenzy777Scraper: every action returns a
well-shaped dict, but the class never assigns self.driver, so the
attribute is absent. -/
def driverlessOps : ScraperOps :=
  { get_agent_balance := .ok (some 100, "Success"),
    player_signup := fun _ _ =>
      .ok [("status", .s "success"), ("message", .s "Player created")],
    recharge_user := fun _ _ =>
      .ok [("status", .s "success"), ("message", .s "Confirmed successful")],
    redeem_user := fun _ _ =>
      .ok [("status", .s "success"), ("message", .s "Confirmed successful")],
    driver := .absent }

/-- Claim C2, counterexample: on the supported game vblink777 (whose
VBlink777Scraper never sets self.driver), the dispatched signup succeeds
with a well-shaped dict, yet the task raises (AttributeError from the
finally clause reading scraper.driver) instead of returning any
{status, message} dict — refuting the claim that every scraper result is
returned normalized and no exception propagates. -/
theorem C2_counterexample :
    driverlessOps.player_signup sampleKw.fullname sampleKw.requested_username =
      Except.ok [("status", JVal.s "success"), ("message", JVal.s "Player created")] ∧
    pandamaster_action (fun _ => driverlessOps) "signup" "vblink777" sampleKw =
      TaskOutcome.raised := by
  exact ⟨rfl, by decide⟩

/-- Claim C2 (amended): for every scraper action run through the worker
task on a game whose scraper instance has the driver attribute (so the
finally-clause cleanup does not itself raise), the task returns a dict
with the status and message keys, and when the dispatched scraper
operation raises an exception e the task does not propagate it but
returns the error dict with message str(e).  For the games whose scraper
classes never set self.driver (vegasx, vblink777, gamevault999,
cashfrenzy777) the finally clause raises AttributeError, discarding the
result — see the counterexample. -/
theorem C2_amended_worker_results_normalized (scraperFor : String → ScraperOps)
    (action_type game_name : String) (kw : Kwargs)
    (hg : game_name ∈ workerSupportedGames)
    (hws : WellShaped (scraperFor game_name))
    (hdrv : (scraperFor game_name).driver ≠ DriverAttr.absent) :
    (outcomeHasKey (pandamaster_action scraperFor action_type game_name kw)
      "status" = true ∧
     outcomeHasKey (pandamaster_action scraperFor action_type game_name kw)
      "message" = true) ∧
    (action_type = "agent_balance" → ∀ e,
      (scraperFor game_name).get_agent_balance = .error e →
      pandamaster_action scraperFor action_type game_name kw =
        .returned (errorDict e)) ∧
    (action_type = "signup" → ∀ e,
      (scraperFor game_name).player_signup kw.fullname kw.requested_username = .error e →
      pandamaster_action scraperFor action_type game_name kw =
        .returned (errorDict e)) ∧
    (action_type = "recharge" → ∀ e,
      (scraperFor game_name).recharge_user kw.username kw.amount = .error e →
      pandamaster_action scraperFor action_type game_name kw =
        .returned (errorDict e)) ∧
    (action_type = "redeem" → ∀ e,
      (scraperFor game_name).redeem_user kw.username kw.amount = .error e →
      pandamaster_action scraperFor action_type game_name kw =
        .returned (errorDict e)) := by
  have hr := runAction_normalized (scraperFor game_name) action_type kw hws
  rw [pandamaster_action_supported scraperFor action_type game_name kw hg]
  have hrt : runTask (scraperFor game_name) action_type kw =
      .returned (runAction (scraperFor game_name) action_type kw) := by
    unfold runTask
    cases hd : (scraperFor game_name).driver with
    | absent => exact absurd hd hdrv
    | present b => rfl
  rw [hrt]
  refine ⟨⟨?_, ?_⟩, ?_, ?_, ?_, ?_⟩
  · simpa [outcomeHasKey] using hr.1.1
  · simpa [outcomeHasKey] using hr.1.2
  · intro ha e he
    rw [hr.2.1 ha e he]
  · intro ha e he
    rw [hr.2.2.1 ha e he]
  · intro ha e he
    rw [hr.2.2.2.1 ha e he]
  · intro ha e he
    rw [hr.2.2.2.2 ha e he]

/-- Concrete driver-carrying scraper (Selenium-style, like
PandaMasterScraper): signup and redeem succeed with well-shaped dicts,
recharge raises. -/
def sampleOps : ScraperOps :=
  { get_agent_balance := .ok (some 100, "Success"),
    player_signup := fun _ _ =>
      .ok [("status", .s "success"), ("message", .s "Added successfully"),
           ("username", .s "pmab123"), ("password", .s "pmab123")],
    recharge_user := fun _ _ => .error "Message: timed out",
    redeem_user := fun _ _ =>
      .ok [("status", .s "failure"), ("message", .s "Insufficient balance")],
    driver := .present true }

theorem C2_amended_witness :
    (outcomeHasKey (pandamaster_action (fun _ => sampleOps) "signup"
      "pandamaster" sampleKw) "status" = true ∧
     outcomeHasKey (pandamaster_action (fun _ => sampleOps) "signup"
      "pandamaster" sampleKw) "message" = true) ∧
    pandamaster_action (fun _ => sampleOps) "recharge" "pandamaster" sampleKw =
      .returned (errorDict "Message: timed out") := by
  have hws : WellShaped sampleOps := by
    refine ⟨?_, ?_, ?_⟩ <;> intro a b d h <;> simp [sampleOps] at h <;>
      subst h <;> exact ⟨by decide, by decide⟩
  have h1 := C2_amended_worker_results_normalized (fun _ => sampleOps) "signup"
    "pandamaster" sampleKw (by decide) hws (by decide)
  have h2 := C2_amended_worker_results_normalized (fun _ => sampleOps) "recharge"
    "pandamaster" sampleKw (by decide) hws (by decide)
  exact ⟨h1.1, h2.2.2.2.1 rfl "Message: timed out" rfl⟩

end Worker

namespace Factory

/-- Python str.lower() (ASCII case folding as performed by Char.toLower). -/
def pyLower (s : String) : String := String.mk (s.data.map Char.toLower)

/-- ScraperFactory.SCRAPER_MAP, app/services/scrapers/factory.py
lines 15-34: game name (lowercase) to (module path, class name). -/
def SCRAPER_MAP : List (String × String × String) :=
  [("pandamaster", "app.services.scrapers.pandamaster", "PandaMasterScraper"),
   ("firekirin", "app.services.scrapers.firekirin", "FireKirinScraper"),
   ("orionstars", "app.services.scrapers.orionstars", "OrionStarsScraper"),
   ("milkywayapp", "app.services.scrapers.milkyway", "MilkyWayScraper"),
   ("juwa777", "app.services.scrapers.juwa777", "Juwa777Scraper"),
   ("vegasx", "app.services.scrapers.vegasx", "VegasXScraper"),
   ("vblink777", "app.services.scrapers.vblink777", "VBlink777Scraper"),
   ("gamevault999", "app.services.scrapers.gamevault999", "GameVault999Scraper"),
   ("ultrapanda", "app.services.scrapers.ultrapanda", "UltraPandaScraper"),
   ("cashfrenzy777", "app.services.scrapers.cashfrenzy777", "CashFrenzy777Scraper"),
   ("cashmachine777", "app.services.scrapers.cashmachine777", "CashMachine777Scraper"),
   ("lasvegassweeps", "app.services.scrapers.lasvegassweeps", "LasVegasSweepsScraper"),
   ("egame99", "app.services.scrapers.egame99", "EGame99Scraper"),
   ("gameroom777", "app.services.scrapers.gameroom777", "GameRoom777Scraper"),
   ("juwa2", "app.services.scrapers.juwa2", "Juwa2Scraper"),
   ("moolah", "app.services.scrapers.moolah", "MoolahScraper"),
   ("mrallinone777", "app.services.scrapers.mrallinone777", "MrAllInOne777Scraper"),
   ("vegasroll", "app.services.scrapers.vegasroll", "VegasRollScraper")]

/-- ScraperFactory.get_scraper_class, factory.py lines 36-56: lowercase
the game name, raise ValueError (Except.error) when it is not a key of
SCRAPER_MAP, otherwise import and return the class (the import of a
statically present module is modelled as succeeding). -/
def get_scraper_class (game_name : String) : Except String (String × String) :=
  let game_key := pyLower game_name
  match SCRAPER_MAP.find? (fun e => e.fst = game_key) with
  | none => .error ("Unsupported game: " ++ game_name)
  | some e => .ok e.snd

/-- ScraperFactory.create_scraper, factory.py lines 58-64: look the class
up and instantiate it; instantiation is modelled by the class identity. -/
def create_scraper (game_name : String) : Except String (String × String) :=
  get_scraper_class game_name

/-- Claim C5: instantiating a scraper by an unsupported game name fails
without running any action: when the lowercased name is not a key of
SCRAPER_MAP, create_scraper raises ValueError; and for a game name
outside the worker chain, pandamaster_action returns (not raises) the
unsupported-game error dict whatever the scrapers do — the branch at
tasks.py lines 50-51 precedes the try/finally — and the result is
independent of scraperFor, so no scraper is instantiated and no action
dispatched. -/
theorem C5_unsupported_game_rejected (game_name : String) :
    (pyLower game_name ∉ SCRAPER_MAP.map Prod.fst →
      create_scraper game_name = .error ("Unsupported game: " ++ game_name)) ∧
    (game_name ∉ Worker.workerSupportedGames →
      ∀ scraperFor action_type kw,
        Worker.pandamaster_action scraperFor action_type game_name kw =
          .returned (Worker.errorDict ("Unsupported game: " ++ game_name))) := by
  constructor
  · intro h
    unfold create_scraper get_scraper_class
    have hfind : SCRAPER_MAP.find? (fun e => e.fst = pyLower game_name) = none := by
      rw [List.find?_eq_none]
      intro x hx
      simp only [decide_eq_true_eq]
      intro hEq
      exact h (hEq ▸ List.mem_map_of_mem Prod.fst hx)
    simp only [hfind]
  · intro h scraperFor action_type kw
    simp only [Worker.workerSupportedGames, List.mem_cons, List.not_mem_nil,
      or_false, not_or] at h
    obtain ⟨h1, h2, h3, h4, h5, h6, h7, h8, h9, h10, h11⟩ := h
    simp [Worker.pandamaster_action, h1, h2, h3, h4, h5, h6, h7, h8, h9, h10, h11]

theorem C5_witness :
    create_scraper "SuperNova" = .error ("Unsupported game: " ++ "SuperNova") ∧
    Worker.pandamaster_action (fun _ => Worker.sampleOps) "recharge" "SuperNova"
      Worker.sampleKw =
        .returned (Worker.errorDict ("Unsupported game: " ++ "SuperNova")) := by
  have h := C5_unsupported_game_rejected "SuperNova"
  exact ⟨h.1 (by decide), h.2 (by decide) (fun _ => Worker.sampleOps)
    "recharge" Worker.sampleKw⟩

end Factory

namespace Items

/-- The Item model, app/models/all_models.py / app/schemas (metadata, a
free-form JSON dict never inspected by the endpoints, is omitted; the
created_at datetime is a Unix timestamp; price is a rational). -/
structure Item where
  id : String
  name : String
  description : Option String
  price : Rat
  quantity : Nat
  is_active : Bool
  created_at : Nat
deriving DecidableEq, Repr

/-- ItemUpdate, app/schemas lines 43-50: all fields optional; None means
the field was not set (model_dump(exclude_unset := True) drops it). -/
structure ItemUpdate where
  name : Option String
  description : Option String
  price : Option Rat
  quantity : Option Nat
  is_active : Option Bool
deriving DecidableEq, Repr

/-- The setattr loop of update_item, app/api/v1/items.py lines 132-134. -/
def apply_update (it : Item) (u : ItemUpdate) : Item :=
  { it with
    name := u.name.getD it.name,
    description := match u.description with
      | some d => some d
      | none => it.description,
    price := u.price.getD it.price,
    quantity := u.quantity.getD it.quantity,
    is_active := u.is_active.getD it.is_active }

/-- An HTTPException response body: status code plus the error/message
detail dict. -/
structure HTTPErr where
  code : Nat
  error : String
  message : String
deriving DecidableEq, Repr

/-- The 404 detail raised by the item endpoints. -/
def notFoundErr (item_id : String) : HTTPErr :=
  { code := 404, error := "not_found",
    message := "Item with ID '" ++ item_id ++ "' not found" }

/-- The select-where-id query followed by scalar_one_or_none (the id is the
primary key, so at most one row matches; the first match models it). -/
def find_item (store : List Item) (item_id : String) : Option Item :=
  store.find? (fun it => it.id = item_id)

/-- Replace the (unique) item with the given id after a mutating commit. -/
def replace_first (store : List Item) (item_id : String) (new : Item) :
    List Item :=
  match store with
  | [] => []
  | it :: rest =>
      if it.id = item_id then new :: rest
      else it :: replace_first rest item_id new

/-- Remove the (unique) item with the given id (db.delete + commit). -/
def remove_first (store : List Item) (item_id : String) : List Item :=
  match store with
  | [] => []
  | it :: rest =>
      if it.id = item_id then rest
      else it :: remove_first rest item_id

/-- get_item, app/api/v1/items.py lines 71-90: 404 when the id is absent,
otherwise the item. -/
def get_item (store : List Item) (item_id : String) : Except HTTPErr Item :=
  match find_item store item_id with
  | none => .error (notFoundErr item_id)
  | some it => .ok it

/-- update_item, app/api/v1/items.py lines 111-138: 404 before any
mutation when the id is absent, otherwise apply the set fields and
commit.  The pair carries the response and the store after the call. -/
def update_item (store : List Item) (item_id : String) (u : ItemUpdate) :
    Except HTTPErr Item × List Item :=
  match find_item store item_id with
  | none => (.error (notFoundErr item_id), store)
  | some db_item =>
      let updated := apply_update db_item u
      (.ok updated, replace_first store item_id updated)

/-- patch_item, app/api/v1/items.py lines 141-153: delegates to
update_item. -/
def patch_item (store : List Item) (item_id : String) (u : ItemUpdate) :
    Except HTTPErr Item × List Item :=
  update_item store item_id u

/-- delete_item, app/api/v1/items.py lines 156-178: 404 before any
mutation when the id is absent, otherwise delete and report success. -/
def delete_item (store : List Item) (item_id : String) :
    Except HTTPErr String × List Item :=
  match find_item store item_id with
  | none => (.error (notFoundErr item_id), store)
  | some _ =>
      (.ok ("Item '" ++ item_id ++ "' deleted successfully"),
        remove_first store item_id)

/-- Claim C3: for an item_id with no item in the store, get, update
(PUT and the PATCH alias) and delete respond 404 with error not_found and
leave the store completely unchanged; for an existing item_id none of
them responds 404 (each succeeds). -/
theorem C3_missing_item_404 (store : List Item) (item_id : String)
    (u : ItemUpdate) :
    (find_item store item_id = none →
      get_item store item_id = .error (notFoundErr item_id) ∧
      update_item store item_id u = (.error (notFoundErr item_id), store) ∧
      patch_item store item_id u = (.error (notFoundErr item_id), store) ∧
      delete_item store item_id = (.error (notFoundErr item_id), store) ∧
      (notFoundErr item_id).code = 404 ∧
      (notFoundErr item_id).error = "not_found") ∧
    (∀ it, find_item store item_id = some it →
      get_item store item_id = .ok it ∧
      (update_item store item_id u).fst = .ok (apply_update it u) ∧
      (patch_item store item_id u).fst = .ok (apply_update it u) ∧
      (delete_item store item_id).fst =
        .ok ("Item '" ++ item_id ++ "' deleted successfully")) := by
  constructor
  · intro h
    simp [get_item, update_item, patch_item, delete_item, h, notFoundErr]
  · intro it h
    simp [get_item, update_item, patch_item, delete_item, h]

/-- Concrete item for the items witnesses. -/
def itemA : Item :=
  { id := "a1", name := "Widget", description := some "blue widget",
    price := 10, quantity := 3, is_active := true, created_at := 100 }

/-- Second concrete item, inactive. -/
def itemB : Item :=
  { id := "b2", name := "Gadget", description := none,
    price := 5, quantity := 0, is_active := false, created_at := 200 }

/-- Third concrete item. -/
def itemC : Item :=
  { id := "c3", name := "Grand Widget", description := none,
    price := 7, quantity := 1, is_active := true, created_at := 300 }

/-- An update that only renames. -/
def renameUpd : ItemUpdate :=
  { name := some "Widget2", description := none, price := none,
    quantity := none, is_active := none }

theorem C3_witness :
    get_item [itemA, itemB] "zzz" = .error (notFoundErr "zzz") ∧
    update_item [itemA, itemB] "zzz" renameUpd =
      (.error (notFoundErr "zzz"), [itemA, itemB]) ∧
    delete_item [itemA, itemB] "zzz" =
      (.error (notFoundErr "zzz"), [itemA, itemB]) ∧
    get_item [itemA, itemB] "a1" = .ok itemA ∧
    (update_item [itemA, itemB] "a1" renameUpd).fst =
      .ok (apply_update itemA renameUpd) ∧
    (delete_item [itemA, itemB] "a1").fst =
      .ok ("Item '" ++ "a1" ++ "' deleted successfully") := by
  have hmiss := (C3_missing_item_404 [itemA, itemB] "zzz" renameUpd).1
    (by decide)
  have hhit := (C3_missing_item_404 [itemA, itemB] "a1" renameUpd).2 itemA
    (by decide)
  exact ⟨hmiss.1, hmiss.2.1, hmiss.2.2.2.1, hhit.1, hhit.2.1, hhit.2.2.2⟩

/-- Case-insensitive contiguous-substring test: the needle occurs in the
haystack. -/
def containsSub (needle : List Char) : List Char → Bool
  | [] => needle.isEmpty
  | c :: rest => needle.isPrefixOf (c :: rest) || containsSub needle rest

/-- The SQL filter Item.name.ilike %search% (items.py line 48):
case-insensitive substring match.  SQL wildcard characters inside the
search string itself are not interpreted in this model. -/
def ilike_contains (name search : String) : Bool :=
  containsSub (search.data.map Char.toLower) (name.data.map Char.toLower)

/-- PaginatedResponse, app/schemas lines 126-133. -/
structure PaginatedResponse where
  items : List Item
  total : Nat
  page : Nat
  page_size : Nat
  pages : Nat
deriving DecidableEq, Repr

/-- PaginatedResponse.create, app/schemas lines 134-137:
pages = (total + page_size - 1) // page_size. -/
def PaginatedResponse.create (items : List Item) (total page page_size : Nat) :
    PaginatedResponse :=
  { items := items, total := total, page := page, page_size := page_size,
    pages := (total + page_size - 1) / page_size }

/-- ORDER BY created_at DESC. -/
def orderByCreatedDesc (l : List Item) : List Item :=
  List.insertionSort (fun a b => b.created_at ≤ a.created_at) l

/-- The filters of list_items (is_active equality, then name search when
the search string is truthy), applied to the store. -/
def filteredItems (store : List Item) (is_active : Option Bool)
    (search : Option String) : List Item :=
  let l : List Item := match is_active with
    | some b => store.filter (fun it => it.is_active = b)
    | none => store
  match search with
  | some s => if s ≠ "" then l.filter (fun it => ilike_contains it.name s) else l
  | none => l

/-- list_items, app/api/v1/items.py lines 24-68: the data query and the
count query are built separately with the same filters; the count gives
total; the data query is ordered by created_at descending and the SQL
OFFSET (page-1)*page_size and LIMIT page_size are applied to the ordered
rows (in SQL, ORDER BY applies before OFFSET/LIMIT regardless of the
builder call order). -/
def list_items (store : List Item) (page page_size : Nat)
    (is_active : Option Bool) (search : Option String) : PaginatedResponse :=
  let query := store
  let count_query := store
  let query : List Item := match is_active with
    | some b => query.filter (fun it => it.is_active = b)
    | none => query
  let count_query : List Item := match is_active with
    | some b => count_query.filter (fun it => it.is_active = b)
    | none => count_query
  let query : List Item := match search with
    | some s => if s ≠ "" then query.filter (fun it => ilike_contains it.name s)
        else query
    | none => query
  let count_query : List Item := match search with
    | some s => if s ≠ "" then count_query.filter (fun it => ilike_contains it.name s)
        else count_query
    | none => count_query
  let total := count_query.length
  let items := ((orderByCreatedDesc query).drop ((page - 1) * page_size)).take
    page_size
  PaginatedResponse.create items total page page_size

/-- Both query pipelines of list_items compute the shared filter. -/
theorem list_items_eq (store : List Item) (page page_size : Nat)
    (is_active : Option Bool) (search : Option String) :
    list_items store page page_size is_active search =
      PaginatedResponse.create
        (((orderByCreatedDesc (filteredItems store is_active search)).drop
          ((page - 1) * page_size)).take page_size)
        (filteredItems store is_active search).length page page_size := rfl

/-- Claim C4: for every page ≥ 1 and 1 ≤ page_size ≤ 100, list_items
returns at most page_size items, namely the slice of the filtered
(ordered) item collection starting at offset (page-1)*page_size; total
equals the number of items matching the same filters; and pages is the
ceiling of total / page_size (0 when total is 0); moreover every returned
item matches the filters. -/
theorem C4_list_items_pagination (store : List Item) (page page_size : Nat)
    (is_active : Option Bool) (search : Option String)
    (_hp : 1 ≤ page) (hps1 : 1 ≤ page_size) (_hps2 : page_size ≤ 100) :
    (list_items store page page_size is_active search).items.length ≤ page_size ∧
    (list_items store page page_size is_active search).items =
      ((orderByCreatedDesc (filteredItems store is_active search)).drop
        ((page - 1) * page_size)).take page_size ∧
    (∀ it, it ∈ (list_items store page page_size is_active search).items →
      it ∈ filteredItems store is_active search) ∧
    (list_items store page page_size is_active search).total =
      (filteredItems store is_active search).length ∧
    (list_items store page page_size is_active search).pages =
      (list_items store page page_size is_active search).total ⌈/⌉ page_size ∧
    ((list_items store page page_size is_active search).total = 0 →
      (list_items store page page_size is_active search).pages = 0) := by
  rw [list_items_eq]
  refine ⟨?_, rfl, ?_, rfl, ?_, ?_⟩
  · exact List.length_take_le page_size
      ((orderByCreatedDesc (filteredItems store is_active search)).drop
        ((page - 1) * page_size))
  · intro it hit
    have h1 : it ∈ orderByCreatedDesc (filteredItems store is_active search) :=
      List.mem_of_mem_drop (List.mem_of_mem_take hit)
    exact (List.perm_insertionSort _ _).subset h1
  · simp [PaginatedResponse.create, Nat.ceilDiv_eq_add_pred_div]
  · intro h0
    have h0z : (filteredItems store is_active search).length = 0 := by
      simpa [PaginatedResponse.create] using h0
    simp only [PaginatedResponse.create, h0z]
    exact Nat.div_eq_of_lt (by omega)

theorem C4_witness :
    (list_items [itemA, itemB, itemC] 2 1 (some true) (some "wid")).items.length ≤ 1 ∧
    (list_items [itemA, itemB, itemC] 2 1 (some true) (some "wid")).items =
      ((orderByCreatedDesc (filteredItems [itemA, itemB, itemC] (some true)
        (some "wid"))).drop 1).take 1 ∧
    (list_items [itemA, itemB, itemC] 2 1 (some true) (some "wid")).total =
      (filteredItems [itemA, itemB, itemC] (some true) (some "wid")).length ∧
    (list_items [itemA, itemB, itemC] 2 1 (some true) (some "wid")).pages =
      (list_items [itemA, itemB, itemC] 2 1 (some true) (some "wid")).total ⌈/⌉ 1 := by
  have h := C4_list_items_pagination [itemA, itemB, itemC] 2 1 (some true)
    (some "wid") (by decide) (by decide) (by decide)
  exact ⟨h.1, h.2.1, h.2.2.2.1, h.2.2.2.2.1⟩

end Items

namespace PandaMaster

/-- MAX_RETRIES, app/services/scrapers/pandamaster.py line 24. -/
def MAX_RETRIES : Nat := 2

/-- Outcome of one iteration of the login retry loop, abstracting the
browser interactions of pandamaster.py lines 82-130: the captcha solver
may require a browser restart (continue), the site may report incorrect
credentials (continue), the dashboard may be reached (return True), or
any Selenium/timeout error is caught by the per-attempt handler (sleep,
reload the login page, continue). -/
inductive AttemptOutcome where
  | restartRequired
  | incorrectCredentials
  | success
  | exceptionRaised (msg : String)
deriving DecidableEq, Repr

/-- The for-attempt-in-range(MAX_RETRIES) loop of login; the pair carries
(result, number of attempts executed). -/
def loginLoop (outcome : Nat → AttemptOutcome) (attempt : Nat) :
    Nat → Bool × Nat
  | 0 => (false, 0)
  | remaining + 1 =>
      match outcome attempt with
      | .success => (true, 1)
      | _ =>
          let r := loginLoop outcome (attempt + 1) remaining
          (r.fst, r.snd + 1)

/-- PandaMasterScraper.login, pandamaster.py lines 69-132: falsy (unset or
empty) credentials short-circuit to False before the loop; otherwise the
retry loop runs and falling out of it returns False. -/
def login (username password : Option String)
    (outcome : Nat → AttemptOutcome) : Bool × Nat :=
  if username = none ∨ username = some "" ∨ password = none ∨ password = some "" then
    (false, 0)
  else loginLoop outcome 0 MAX_RETRIES

/-- The loop executes at most as many attempts as remain. -/
theorem loginLoop_attempts_le (outcome : Nat → AttemptOutcome) :
    ∀ remaining attempt, (loginLoop outcome attempt remaining).snd ≤ remaining := by
  intro remaining
  induction remaining with
  | zero => intro attempt; simp [loginLoop]
  | succ n ih =>
      intro attempt
      cases h : outcome attempt <;> simp [loginLoop, h] <;>
        exact ih (attempt + 1)

/-- When no executed attempt succeeds, the loop returns False. -/
theorem loginLoop_all_fail (outcome : Nat → AttemptOutcome) :
    ∀ remaining attempt,
      (∀ i, attempt ≤ i → i < attempt + remaining → outcome i ≠ .success) →
      (loginLoop outcome attempt remaining).fst = false := by
  intro remaining
  induction remaining with
  | zero => intro attempt _; simp [loginLoop]
  | succ n ih =>
      intro attempt h
      have hcur : outcome attempt ≠ .success :=
        h attempt (Nat.le_refl attempt) (by omega)
      cases hout : outcome attempt <;> simp [loginLoop, hout] <;>
        first
          | exact absurd hout hcur
          | exact ih (attempt + 1) (fun i h1 h2 => h i (by omega) (by omega))

/-- Claim C8: PandaMasterScraper.login terminates for every input (it is a
total function of the credentials and the per-attempt outcomes): the
retry loop executes at most MAX_RETRIES attempts, and when no attempt
succeeds — including when username or password is unset or empty — it
returns False rather than looping or raising. -/
theorem C8_login_bounded_and_false_on_failure (username password : Option String)
    (outcome : Nat → AttemptOutcome) :
    (login username password outcome).snd ≤ MAX_RETRIES ∧
    ((∀ i, i < MAX_RETRIES → outcome i ≠ .success) →
      (login username password outcome).fst = false) ∧
    (username = none ∨ username = some "" ∨ password = none ∨ password = some "" →
      login username password outcome = (false, 0)) := by
  unfold login
  by_cases hc : username = none ∨ username = some "" ∨ password = none ∨
      password = some ""
  · simp [hc, MAX_RETRIES]
  · rw [if_neg hc]
    refine ⟨loginLoop_attempts_le outcome MAX_RETRIES 0, ?_, fun h => absurd h hc⟩
    intro h
    exact loginLoop_all_fail outcome MAX_RETRIES 0
      (fun i _ h2 => h i (by omega))

theorem C8_witness :
    (login (some "agent") (some "pw")
      (fun _ => .exceptionRaised "Timeout")).snd ≤ MAX_RETRIES ∧
    (login (some "agent") (some "pw")
      (fun _ => .exceptionRaised "Timeout")).fst = false ∧
    login none (some "pw") (fun _ => .success) = (false, 0) := by
  have h1 := C8_login_bounded_and_false_on_failure (some "agent") (some "pw")
    (fun _ => .exceptionRaised "Timeout")
  have h2 := C8_login_bounded_and_false_on_failure none (some "pw")
    (fun _ => .success)
  exact ⟨h1.1, h1.2.1 (fun i _ => by simp), h2.2.2 (Or.inl rfl)⟩

end PandaMaster

namespace CmdHandler

/-- Python strings in the Telegram-update parser are embedded as lists of
characters, so that the split and indexing operations of from_dict are
structural. -/
abbrev PyText := List Char

/-- The message sub-dict of a Telegram update as read by from_dict;
absent keys are None (dict.get). -/
structure MessageDict where
  message_id : Option Int
  chat_id : Option Int
  chat_type : Option PyText
  user_id : Option Int
  username : Option PyText
  first_name : Option PyText
  text : Option PyText
  is_bot : Option Bool
  date : Option Nat
deriving DecidableEq, Repr

/-- The message dict defaulted to {} when the update has none. -/
def emptyMessage : MessageDict :=
  { message_id := none, chat_id := none, chat_type := none, user_id := none,
    username := none, first_name := none, text := none, is_bot := none,
    date := none }

/-- A raw Telegram update dict. -/
structure UpdateDict where
  update_id : Option Nat
  message : Option MessageDict
deriving DecidableEq, Repr

/-- TelegramUpdate, app/services/command_handler.py lines 18-32. -/
structure TelegramUpdate where
  update_id : Nat
  message_id : Option Int
  chat_id : Option Int
  chat_type : Option PyText
  user_id : Option Int
  username : Option PyText
  first_name : Option PyText
  text : PyText
  command : Option PyText
  command_args : Option PyText
  is_bot : Bool
  date : Option Nat
deriving DecidableEq, Repr

/-- message.get("text", "") of an update dict. -/
def msg_text (data : UpdateDict) : PyText :=
  (data.message.getD emptyMessage).text.getD []

/-- Python text.split(maxsplit=1) with the default whitespace separator:
skip leading whitespace; if nothing remains the result is empty;
otherwise the first token is the leading run of non-whitespace and the
remainder (with the following whitespace run removed) is the second
element when nonempty. -/
def pySplitMax1 (s : PyText) : List PyText :=
  let s1 := s.dropWhile Char.isWhitespace
  if s1.isEmpty then []
  else
    let tok := s1.takeWhile (fun c => !c.isWhitespace)
    let rest := (s1.dropWhile (fun c => !c.isWhitespace)).dropWhile
      Char.isWhitespace
    if rest.isEmpty then [tok] else [tok, rest]

/-- The command-parsing block of TelegramUpdate.from_dict,
command_handler.py lines 44-51: when the text is truthy and starts with
a slash, parts = text.split(maxsplit=1); cmd = parts[0].split("@")[0];
command = cmd[1:]; command_args = parts[1] if len(parts) > 1 else None.
(The [] match arm is unreachable: a text headed by the non-whitespace
slash always yields a first token.) -/
def parse_command (text : PyText) : Option PyText × Option PyText :=
  if text ≠ [] ∧ ['/'].isPrefixOf text then
    match pySplitMax1 text with
    | [] => (none, none)
    | p0 :: rest =>
        let cmd := p0.takeWhile (fun c => c != '@')
        (some (cmd.drop 1), rest.head?)
  else (none, none)

/-- TelegramUpdate.from_dict, command_handler.py lines 34-66. -/
def from_dict (data : UpdateDict) : TelegramUpdate :=
  let update_id := data.update_id.getD 0
  let message := data.message.getD emptyMessage
  let text := msg_text data
  let cmdPair := parse_command text
  { update_id := update_id,
    message_id := message.message_id,
    chat_id := message.chat_id,
    chat_type := message.chat_type,
    user_id := message.user_id,
    username := message.username,
    first_name := message.first_name,
    text := text,
    command := cmdPair.fst,
    command_args := cmdPair.snd,
    is_bot := message.is_bot.getD false,
    date := match message.date with
      | some d => if d ≠ 0 then some d else none
      | none => none }

/-- Splitting a text headed by a non-whitespace character. -/
theorem pySplitMax1_cons (c : Char) (t : PyText)
    (hc : c.isWhitespace = false) :
    pySplitMax1 (c :: t) =
      (if ((t.dropWhile (fun x => !x.isWhitespace)).dropWhile
            Char.isWhitespace).isEmpty
        then [c :: t.takeWhile (fun x => !x.isWhitespace)]
        else [c :: t.takeWhile (fun x => !x.isWhitespace),
          (t.dropWhile (fun x => !x.isWhitespace)).dropWhile
            Char.isWhitespace]) := by
  unfold pySplitMax1
  simp [List.dropWhile_cons, List.takeWhile_cons, hc]

/-- Claim C7: for every Telegram update whose message text starts with a
slash, from_dict sets command to the first whitespace-delimited token of
the text with any @botname suffix stripped and the leading slash removed,
and command_args to the remainder of the text after that token and its
delimiting whitespace (None when that remainder is empty); for a text not
starting with a slash (including an empty text) both are None. -/
theorem C7_from_dict_command_parsing (data : UpdateDict) :
    ((msg_text data).head? ≠ some '/' →
      (from_dict data).command = none ∧ (from_dict data).command_args = none) ∧
    ((msg_text data).head? = some '/' →
      (from_dict data).command =
        some ((((msg_text data).takeWhile (fun c => !c.isWhitespace)).takeWhile
          (fun c => c != '@')).drop 1) ∧
      (from_dict data).command_args =
        (if (((msg_text data).dropWhile (fun c => !c.isWhitespace)).dropWhile
              Char.isWhitespace).isEmpty
          then none
          else some (((msg_text data).dropWhile
            (fun c => !c.isWhitespace)).dropWhile Char.isWhitespace))) := by
  have hcmd : (from_dict data).command = (parse_command (msg_text data)).fst := rfl
  have hargs : (from_dict data).command_args =
    (parse_command (msg_text data)).snd := rfl
  rw [hcmd, hargs]
  constructor
  · intro h
    cases htext : msg_text data with
    | nil => exact ⟨rfl, rfl⟩
    | cons c t =>
        have hc : c ≠ '/' := fun hEq => h (by rw [htext, hEq]; rfl)
        unfold parse_command
        rw [if_neg]
        · exact ⟨rfl, rfl⟩
        · rintro ⟨-, hpre⟩
          simp [List.isPrefixOf] at hpre
          exact hc hpre.symm
  · intro h
    cases htext : msg_text data with
    | nil => rw [htext] at h; simp at h
    | cons c t =>
        have hc : c = '/' := by
          rw [htext] at h
          simpa using h
        subst hc
        have hws : ('/' : Char).isWhitespace = false := by decide
        have hat : ('/' != '@') = true := by decide
        unfold parse_command
        rw [if_pos ⟨by simp, by simp [List.isPrefixOf]⟩]
        rw [pySplitMax1_cons '/' t hws]
        by_cases hrem : ((t.dropWhile (fun x => !x.isWhitespace)).dropWhile
            Char.isWhitespace).isEmpty
        · rw [if_pos hrem]
          constructor
          · simp [List.takeWhile_cons, hws, hat]
          · simp [hrem]
        · rw [if_neg hrem]
          constructor
          · simp [List.takeWhile_cons, hws, hat]
          · simp [List.dropWhile_cons, hws, hrem]

/-- Concrete update carrying a command message, for the C7 witness. -/
def sampleUpdate : UpdateDict :=
  { update_id := some 42,
    message := some { emptyMessage with
      message_id := some 7, chat_id := some 100,
      chat_type := some ("private".data), user_id := some 7,
      text := some ("/scrape@mybot https://example.com fast".data),
      is_bot := some false, date := some 5 } }

/-- Concrete update whose text is not a command. -/
def plainUpdate : UpdateDict :=
  { update_id := some 43,
    message := some { emptyMessage with
      text := some ("hello there".data) } }

theorem C7_witness :
    ((from_dict sampleUpdate).command =
      some ((((msg_text sampleUpdate).takeWhile
        (fun c => !c.isWhitespace)).takeWhile (fun c => c != '@')).drop 1) ∧
     (from_dict sampleUpdate).command_args =
      (if (((msg_text sampleUpdate).dropWhile
            (fun c => !c.isWhitespace)).dropWhile Char.isWhitespace).isEmpty
        then none
        else some (((msg_text sampleUpdate).dropWhile
          (fun c => !c.isWhitespace)).dropWhile Char.isWhitespace))) ∧
    (from_dict plainUpdate).command = none ∧
    (from_dict plainUpdate).command_args = none :=
  ⟨(C7_from_dict_command_parsing sampleUpdate).2 (by decide),
   (C7_from_dict_command_parsing plainUpdate).1 (by decide)⟩

end CmdHandler
